import Mathlib

/-!
Shallow embedding of `go-ldap-client` (package `ldap`, file `ldap-client.go`).

The Go client is thin glue over the external `gopkg.in/ldap.v2` library.  We
model the external library as an oracle (`Env`): each primitive
(`Dial`, `DialTLS`, `StartTLS`, `Bind`, `Search`, `Add`, `Modify`) is a pure
function of the operation trace issued so far (allowing history-dependent
directories, e.g. a bind that succeeds once and fails later) and the request.
Every client method is a state-passing function taking the client value and
the trace of issued operations and returning the Go results, the updated
client and the extended trace.  Go `error` is modelled as `Option GoErr`
(`none` = nil), slices as lists, the `map[string]string` result as an
association list with Go-map overwrite semantics.
-/

/-- Go `error` values, identified by their message. -/
abbrev GoErr := String

/-- The fields of `crypto/tls.Config` that the client sets. -/
structure TLSConfig where
  InsecureSkipVerify : Bool
  ServerName : String
  deriving DecidableEq, Repr

/-- `ldap.EntryAttribute`: one attribute of a search-result entry. -/
structure EntryAttribute where
  Name : String
  Values : List String
  deriving DecidableEq, Repr

/-- `ldap.Entry`: one search-result entry. -/
structure Entry where
  DN : String
  Attributes : List EntryAttribute
  deriving DecidableEq, Repr

/-- `ldap.SearchResult` (the `Entries` field; the rest is unused). -/
structure SearchResult where
  Entries : List Entry
  deriving DecidableEq, Repr

/-- `ldap.SearchRequest` as built by `ldap.NewSearchRequest` (the fields the
client sets; `Controls` is always `nil` and omitted). -/
structure SearchRequest where
  BaseDN : String
  Scope : Nat
  DerefAliases : Nat
  SizeLimit : Nat
  TimeLimit : Nat
  TypesOnly : Bool
  Filter : String
  Attributes : List String
  deriving DecidableEq, Repr

/-- `ldap.Attribute` (used by `AddRequest.Attribute`). -/
structure AddAttribute where
  Type' : String
  Vals : List String
  deriving DecidableEq, Repr

/-- `ldap.AddRequest`: DN plus the attributes appended via `.Attribute`. -/
structure AddRequest where
  DN : String
  Attributes : List AddAttribute
  deriving DecidableEq, Repr

/-- `ldap.PartialAttribute` (used by modify requests). -/
structure PartialAttribute where
  Type' : String
  Vals : List String
  deriving DecidableEq, Repr

/-- `ldap.ModifyRequest` as built by `ldap.NewModifyRequest`. -/
structure ModifyRequest where
  DN : String
  AddAttributes : List PartialAttribute
  DeleteAttributes : List PartialAttribute
  ReplaceAttributes : List PartialAttribute
  deriving DecidableEq, Repr

/-- `ldap.ScopeWholeSubtree`. -/
def ScopeWholeSubtree : Nat := 2

/-- `ldap.NeverDerefAliases`. -/
def NeverDerefAliases : Nat := 0

/-- One operation issued against the external ldap library. -/
inductive Op where
  | dial (address : String)
  | dialTLS (address : String) (cfg : TLSConfig)
  | startTLS (cfg : TLSConfig)
  | bind (dn password : String)
  | search (req : SearchRequest)
  | add (req : AddRequest)
  | modify (req : ModifyRequest)
  | close
  deriving DecidableEq, Repr

/-- The external ldap library as a deterministic oracle.  Each primitive sees
the trace of operations issued so far, so its answer may depend on history
(e.g. a rebind may fail although the earlier bind with the same credentials
succeeded).  `Dial`/`DialTLS` return a connection handle on success. -/
structure Env where
  dial : List Op → String → Except GoErr Nat
  dialTLS : List Op → String → TLSConfig → Except GoErr Nat
  startTLS : List Op → TLSConfig → Option GoErr
  bind : List Op → String → String → Option GoErr
  search : List Op → SearchRequest → Except GoErr SearchResult
  add : List Op → AddRequest → Option GoErr
  modify : List Op → ModifyRequest → Option GoErr

/-- The `LDAPClient` struct. `Conn *ldap.Conn` becomes an optional handle. -/
structure LDAPClient where
  Attributes : List String
  Base : String
  BindDN : String
  BindPassword : String
  GroupFilter : String
  Host : String
  ServerName : String
  UserFilter : String
  Conn : Option Nat
  Port : Int
  InsecureSkipVerify : Bool
  UseSSL : Bool
  SkipTLS : Bool
  deriving DecidableEq, Repr

/-- The `AddUserAccount` struct. -/
structure AddUserAccount where
  Username : String
  Password : String
  OU : String
  UID : Int
  GID : Int
  deriving DecidableEq, Repr

/-- An argument to `fmt.Sprintf`: a string (`%s`) or an int (`%d`). -/
inductive FmtArg where
  | s (v : String)
  | d (v : Int)
  deriving DecidableEq, Repr

/-- `fmt.Sprintf` on the format verbs the client uses (`%s`, `%d`); a verb
with a missing or mismatched argument yields Go's `%!` error text. -/
def goSprintfAux : List Char → List FmtArg → String
  | [], _ => ""
  | '%' :: 's' :: rest, FmtArg.s v :: args => v ++ goSprintfAux rest args
  | '%' :: 's' :: rest, FmtArg.d v :: args =>
      "%!s(int=" ++ toString v ++ ")" ++ goSprintfAux rest args
  | '%' :: 's' :: rest, [] => "%!s(MISSING)" ++ goSprintfAux rest []
  | '%' :: 'd' :: rest, FmtArg.d v :: args => toString v ++ goSprintfAux rest args
  | '%' :: 'd' :: rest, FmtArg.s v :: args =>
      "%!d(string=" ++ v ++ ")" ++ goSprintfAux rest args
  | '%' :: 'd' :: rest, [] => "%!d(MISSING)" ++ goSprintfAux rest []
  | c :: rest, args => String.singleton c ++ goSprintfAux rest args

/-- `fmt.Sprintf` on a format string. -/
def goSprintf (format : String) (args : List FmtArg) : String :=
  goSprintfAux format.data args

/-- The `address` computed in `Connect`: `fmt.Sprintf("%s:%d", lc.Host, lc.Port)`. -/
def LDAPClient.address (lc : LDAPClient) : String :=
  goSprintf "%s:%d" [FmtArg.s lc.Host, FmtArg.d lc.Port]

/-- The TLS config passed to `StartTLS` in `Connect`:
`&tls.Config{InsecureSkipVerify: true}` (other fields zero). -/
def startTLSConfig : TLSConfig := { InsecureSkipVerify := true, ServerName := "" }

/-- `Connect`: if a connection is already held, no-op; otherwise dial
(plaintext + optional StartTLS upgrade, or direct TLS), storing the
connection only on full success. -/
def LDAPClient.Connect (env : Env) (lc : LDAPClient) (tr : List Op) :
    Option GoErr × LDAPClient × List Op :=
  match lc.Conn with
  | some _ => (none, lc, tr)
  | none =>
    if !lc.UseSSL then
      match env.dial tr lc.address with
      | Except.error e => (some e, lc, tr ++ [Op.dial lc.address])
      | Except.ok l =>
        let tr1 := tr ++ [Op.dial lc.address]
        if !lc.SkipTLS then
          match env.startTLS tr1 startTLSConfig with
          | some e => (some e, lc, tr1 ++ [Op.startTLS startTLSConfig])
          | none => (none, { lc with Conn := some l }, tr1 ++ [Op.startTLS startTLSConfig])
        else
          (none, { lc with Conn := some l }, tr1)
    else
      let cfg : TLSConfig :=
        { InsecureSkipVerify := lc.InsecureSkipVerify, ServerName := lc.ServerName }
      match env.dialTLS tr lc.address cfg with
      | Except.error e => (some e, lc, tr ++ [Op.dialTLS lc.address cfg])
      | Except.ok l => (none, { lc with Conn := some l }, tr ++ [Op.dialTLS lc.address cfg])

/-- `Close`: release the held connection if present and clear the handle. -/
def LDAPClient.Close (lc : LDAPClient) (tr : List Op) : LDAPClient × List Op :=
  match lc.Conn with
  | some _ => ({ lc with Conn := none }, tr ++ [Op.close])
  | none => (lc, tr)

/-- Go `map[string]string` as an association list; a write overwrites the
existing binding for the key, if any. -/
abbrev GoMap := List (String × String)

/-- Go map write `m[k] = v`. -/
def mapSet (m : GoMap) (k v : String) : GoMap :=
  match m with
  | [] => [(k, v)]
  | (k0, v0) :: rest => if k0 = k then (k, v) :: rest else (k0, v0) :: mapSet rest k v

/-- Go map read `m[k]` (`none` when the key is absent, i.e. zero value). -/
def mapGet (m : GoMap) (k : String) : Option String :=
  match m with
  | [] => none
  | (k0, v0) :: rest => if k0 = k then some v0 else mapGet rest k

/-- `ldap.Entry.GetAttributeValues`: the values of the first attribute with
the given name, or the empty slice. -/
def Entry.GetAttributeValues (e : Entry) (attribute' : String) : List String :=
  match e.Attributes.find? (fun attr => attr.Name == attribute') with
  | some attr => attr.Values
  | none => []

/-- `ldap.Entry.GetAttributeValue`: the first value of the attribute, or `""`. -/
def Entry.GetAttributeValue (e : Entry) (attribute' : String) : String :=
  match e.GetAttributeValues attribute' with
  | [] => ""
  | v :: _ => v

/-- The service-credential bind block shared verbatim by `Authenticate`,
`AddUser`, `AddUserAccount` and `ChangeAttribute`:
`if lc.BindDN != "" && lc.BindPassword != "" { err := lc.Conn.Bind(...) ... }`.
Returns the bind error (none when skipped or successful) and the trace. -/
def LDAPClient.serviceBind (env : Env) (lc : LDAPClient) (tr : List Op) :
    Option GoErr × List Op :=
  if lc.BindDN != "" && lc.BindPassword != "" then
    (env.bind tr lc.BindDN lc.BindPassword, tr ++ [Op.bind lc.BindDN lc.BindPassword])
  else
    (none, tr)

/-- The search request built in `Authenticate`: whole subtree under the base,
never dereferencing aliases, user filter with the username substituted,
requesting the configured attributes plus `"dn"`. -/
def LDAPClient.userSearchRequest (lc : LDAPClient) (username : String) : SearchRequest :=
  { BaseDN := lc.Base
    Scope := ScopeWholeSubtree
    DerefAliases := NeverDerefAliases
    SizeLimit := 0
    TimeLimit := 0
    TypesOnly := false
    Filter := goSprintf lc.UserFilter [FmtArg.s username]
    Attributes := lc.Attributes ++ ["dn"] }

/-- The `user` map built in `Authenticate`:
`for _, attr := range lc.Attributes { user[attr] = sr.Entries[0].GetAttributeValue(attr) }`. -/
def buildUserMap (attrs : List String) (entry : Entry) : GoMap :=
  attrs.foldl (fun m attr => mapSet m attr (entry.GetAttributeValue attr)) []

/-- `Authenticate` from the search on: exactly-one-entry check, attribute-map
collection, user bind, service rebind (steps (3)-(8) of the spec). -/
def LDAPClient.authSearch (env : Env) (lc : LDAPClient) (tr : List Op)
    (username password : String) :
    (Bool × GoMap × Option GoErr) × LDAPClient × List Op :=
  let searchRequest := lc.userSearchRequest username
  match env.search tr searchRequest, tr ++ [Op.search searchRequest] with
  | Except.error e, tr1 => ((false, [], some e), lc, tr1)
  | Except.ok sr, tr1 =>
    match sr.Entries with
    | [] => ((false, [], some "User does not exist"), lc, tr1)
    | _ :: _ :: _ => ((false, [], some "Too many entries returned"), lc, tr1)
    | [entry0] =>
      let userDN := entry0.DN
      let user := buildUserMap lc.Attributes entry0
      match env.bind tr1 userDN password, tr1 ++ [Op.bind userDN password] with
      | some e, tr2 => ((false, user, some e), lc, tr2)
      | none, tr2 =>
        if lc.BindDN != "" && lc.BindPassword != "" then
          match env.bind tr2 lc.BindDN lc.BindPassword,
                tr2 ++ [Op.bind lc.BindDN lc.BindPassword] with
          | some e, tr3 => ((true, user, some e), lc, tr3)
          | none, tr3 => ((true, user, none), lc, tr3)
        else
          ((true, user, none), lc, tr2)

/-- `Authenticate`: connect, service bind if configured, then search and
verify the password (returns authenticated flag, attribute map, error). -/
def LDAPClient.Authenticate (env : Env) (lc : LDAPClient) (tr : List Op)
    (username password : String) :
    (Bool × GoMap × Option GoErr) × LDAPClient × List Op :=
  match lc.Connect env tr with
  | (some e, lc1, tr1) => ((false, [], some e), lc1, tr1)
  | (none, lc1, tr1) =>
    match lc1.serviceBind env tr1 with
    | (some e, tr2) => ((false, [], some e), lc1, tr2)
    | (none, tr2) => lc1.authSearch env tr2 username password

/-- The search request built in `Filter` (and `GetGroupsOfUser`). -/
def LDAPClient.filterSearchRequest (lc : LDAPClient) (filter : String)
    (attributes : List String) : SearchRequest :=
  { BaseDN := lc.Base
    Scope := ScopeWholeSubtree
    DerefAliases := NeverDerefAliases
    SizeLimit := 0
    TimeLimit := 0
    TypesOnly := false
    Filter := filter
    Attributes := attributes }

/-- `Filter`: connect, search, flatten every value of every attribute of
every matched entry (no bind is issued by this method). -/
def LDAPClient.Filter (env : Env) (lc : LDAPClient) (tr : List Op)
    (filter : String) (attributes : List String) :
    (List String × Option GoErr) × LDAPClient × List Op :=
  match lc.Connect env tr with
  | (some e, lc1, tr1) => (([], some e), lc1, tr1)
  | (none, lc1, tr1) =>
    let searchRequest := lc1.filterSearchRequest filter attributes
    match env.search tr1 searchRequest, tr1 ++ [Op.search searchRequest] with
    | Except.error e, tr2 => (([], some e), lc1, tr2)
    | Except.ok sr, tr2 =>
      let result := sr.Entries.foldl (fun acc entry =>
        entry.Attributes.foldl (fun acc attr =>
          attr.Values.foldl (fun acc value => acc ++ [value]) acc) acc) []
      ((result, none), lc1, tr2)

/-- `GetGroupsOfUser`: delegate to `Filter` with the group filter template
substituted with the username, requesting only `"cn"`. -/
def LDAPClient.GetGroupsOfUser (env : Env) (lc : LDAPClient) (tr : List Op)
    (username : String) :
    (List String × Option GoErr) × LDAPClient × List Op :=
  lc.Filter env tr (goSprintf lc.GroupFilter [FmtArg.s username]) ["cn"]

/-- The add request built in `AddUser`. -/
def addUserRequest (username password ou base : String) : AddRequest :=
  { DN := goSprintf "cn=%s,ou=%s,%s" [FmtArg.s username, FmtArg.s ou, FmtArg.s base]
    Attributes :=
      [ { Type' := "objectClass", Vals := ["inetOrgPerson"] }
      , { Type' := "userPassword", Vals := [password] }
      , { Type' := "sn", Vals := [username] }
      , { Type' := "uid", Vals := [username] } ] }

/-- `AddUser`: connect, service bind if configured, issue the add request. -/
def LDAPClient.AddUser (env : Env) (lc : LDAPClient) (tr : List Op)
    (username password ou : String) :
    Option GoErr × LDAPClient × List Op :=
  match lc.Connect env tr with
  | (some e, lc1, tr1) => (some e, lc1, tr1)
  | (none, lc1, tr1) =>
    match lc1.serviceBind env tr1 with
    | (some e, tr2) => (some e, lc1, tr2)
    | (none, tr2) =>
      let addRequest := addUserRequest username password ou lc1.Base
      (env.add tr2 addRequest, lc1, tr2 ++ [Op.add addRequest])

/-- The add request built in `AddUserAccount` (`strconv.Itoa` = decimal print). -/
def addUserAccountRequest (account : AddUserAccount) (base : String) : AddRequest :=
  { DN := goSprintf "cn=%s,ou=%s,%s" [FmtArg.s account.Username, FmtArg.s account.OU, FmtArg.s base]
    Attributes :=
      [ { Type' := "objectClass", Vals := ["inetOrgPerson", "posixAccount"] }
      , { Type' := "uidNumber", Vals := [toString account.UID] }
      , { Type' := "gidNumber", Vals := [toString account.GID] }
      , { Type' := "userPassword", Vals := [account.Password] }
      , { Type' := "homeDirectory", Vals := ["/home/" ++ account.Username] }
      , { Type' := "loginShell", Vals := ["/bin/bash"] }
      , { Type' := "sn", Vals := [account.Username] }
      , { Type' := "uid", Vals := [account.Username] } ] }

/-- `AddUserAccount`: connect, service bind if configured, issue the add. -/
def LDAPClient.AddUserAccount' (env : Env) (lc : LDAPClient) (tr : List Op)
    (account : AddUserAccount) :
    Option GoErr × LDAPClient × List Op :=
  match lc.Connect env tr with
  | (some e, lc1, tr1) => (some e, lc1, tr1)
  | (none, lc1, tr1) =>
    match lc1.serviceBind env tr1 with
    | (some e, tr2) => (some e, lc1, tr2)
    | (none, tr2) =>
      let addRequest := addUserAccountRequest account lc1.Base
      (env.add tr2 addRequest, lc1, tr2 ++ [Op.add addRequest])

/-- The modify request built in `ChangeAttribute`:
`ReplaceAttributes = append([]ldap.PartialAttribute{}, attr)`. -/
def mkModifyRequest (DN attribute' : String) (values : List String) : ModifyRequest :=
  { DN := DN
    AddAttributes := []
    DeleteAttributes := []
    ReplaceAttributes := [] ++ [{ Type' := attribute', Vals := values }] }

/-- `ChangeAttribute`: connect, service bind if configured, issue a modify
request replacing the named attribute's value set on the DN. -/
def LDAPClient.ChangeAttribute (env : Env) (lc : LDAPClient) (tr : List Op)
    (DN attribute' : String) (values : List String) :
    Option GoErr × LDAPClient × List Op :=
  match lc.Connect env tr with
  | (some e, lc1, tr1) => (some e, lc1, tr1)
  | (none, lc1, tr1) =>
    match lc1.serviceBind env tr1 with
    | (some e, tr2) => (some e, lc1, tr2)
    | (none, tr2) =>
      let modifyRequest := mkModifyRequest DN attribute' values
      (env.modify tr2 modifyRequest, lc1, tr2 ++ [Op.modify modifyRequest])

/-- `ChangeMembers`: replace `memberUid` on `cn=<groupname>,ou=<ou>,<base>`. -/
def LDAPClient.ChangeMembers (env : Env) (lc : LDAPClient) (tr : List Op)
    (members : List String) (groupname ou : String) :
    Option GoErr × LDAPClient × List Op :=
  let DN := goSprintf "cn=%s,ou=%s,%s" [FmtArg.s groupname, FmtArg.s ou, FmtArg.s lc.Base]
  lc.ChangeAttribute env tr DN "memberUid" members

/-- `ChangeDescription`: replace `description` on `ou=<ou>,<base>`. -/
def LDAPClient.ChangeDescription (env : Env) (lc : LDAPClient) (tr : List Op)
    (description ou : String) :
    Option GoErr × LDAPClient × List Op :=
  let DN := goSprintf "ou=%s,%s" [FmtArg.s ou, FmtArg.s lc.Base]
  lc.ChangeAttribute env tr DN "description" [description]

/-- `ChangePassword`: replace `userPassword` on `cn=<username>,ou=<ou>,<base>`. -/
def LDAPClient.ChangePassword (env : Env) (lc : LDAPClient) (tr : List Op)
    (password username ou : String) :
    Option GoErr × LDAPClient × List Op :=
  let DN := goSprintf "cn=%s,ou=%s,%s" [FmtArg.s username, FmtArg.s ou, FmtArg.s lc.Base]
  lc.ChangeAttribute env tr DN "userPassword" [password]

/-- Whether an operation is a bind on the connection. -/
def isBindOp : Op → Bool
  | Op.bind _ _ => true
  | _ => false

/-! ### Concrete data for evaluating the development on closed inputs -/

/-- A concrete directory entry. -/
def entryW : Entry :=
  { DN := "uid=alice,dc=example,dc=com"
    Attributes := [ { Name := "mail", Values := ["alice@example.com"] }
                  , { Name := "sn", Values := ["Liddell"] } ] }

/-- A second concrete entry, for the ambiguous-match scenario. -/
def entryW2 : Entry :=
  { DN := "uid=alice,ou=other,dc=example,dc=com", Attributes := [] }

/-- A concrete client that already holds a connection and has no service
credentials configured. -/
def lcW : LDAPClient :=
  { Attributes := ["mail", "sn"]
    Base := "dc=example,dc=com"
    BindDN := ""
    BindPassword := ""
    GroupFilter := "(memberUid=%s)"
    Host := "ldap.example.com"
    ServerName := ""
    UserFilter := "(uid=%s)"
    Conn := some 1
    Port := 389
    InsecureSkipVerify := false
    UseSSL := false
    SkipTLS := true }

/-- `lcW` with service credentials configured. -/
def lcW3 : LDAPClient :=
  { lcW with BindDN := "cn=admin,dc=example,dc=com", BindPassword := "adminpw" }

/-- `lcW` with no held connection, on the plaintext + StartTLS path. -/
def lcW6 : LDAPClient := { lcW with Conn := none, SkipTLS := false }

/-- `lcW` with no held connection. -/
def lcW7 : LDAPClient := { lcW with Conn := none }

/-- `lcW` with a bind DN but an empty bind password. -/
def lcW10 : LDAPClient := { lcW with BindDN := "cn=admin,dc=example,dc=com" }

/-- A concrete environment: one entry matches every search, and a bind
succeeds exactly for that entry's DN with password `"secret"`. -/
def envW : Env :=
  { dial := fun _ _ => Except.ok 1
    dialTLS := fun _ _ _ => Except.ok 2
    startTLS := fun _ _ => none
    bind := fun _ dn pw =>
      if dn = "uid=alice,dc=example,dc=com" ∧ pw = "secret" then none
      else some "Invalid Credentials"
    search := fun _ _ => Except.ok { Entries := [entryW] }
    add := fun _ _ => none
    modify := fun _ _ => none }

/-- `envW` with no entry matching any search. -/
def envW0 : Env := { envW with search := fun _ _ => Except.ok { Entries := [] } }

/-- `envW` with two entries matching every search. -/
def envW2 : Env :=
  { envW with search := fun _ _ => Except.ok { Entries := [entryW, entryW2] } }

/-- A history-dependent environment: binds as the admin DN succeed at first
but are refused once at least three operations have been issued, so the
service rebind at the end of `Authenticate` fails although the initial
service bind succeeded. -/
def envW3 : Env :=
  { envW with bind := fun tr dn _ =>
      if dn = "cn=admin,dc=example,dc=com" ∧ 3 ≤ tr.length then some "rebind refused"
      else none }

/-- `envW` whose dial always fails. -/
def envW6 : Env := { envW with dial := fun _ _ => Except.error "connection refused" }

/-! ### Helper lemmas -/

theorem mapGet_mapSet_self (m : GoMap) (k v : String) :
    mapGet (mapSet m k v) k = some v := by
  induction m with
  | nil => simp [mapSet, mapGet]
  | cons p rest ih =>
    obtain ⟨k0, v0⟩ := p
    by_cases h : k0 = k
    · simp [mapSet, mapGet, h]
    · simp [mapSet, mapGet, h, ih]

theorem mapGet_mapSet_ne (m : GoMap) (k v a : String) (h : k ≠ a) :
    mapGet (mapSet m k v) a = mapGet m a := by
  induction m with
  | nil => simp [mapSet, mapGet, h]
  | cons p rest ih =>
    obtain ⟨k0, v0⟩ := p
    by_cases h0 : k0 = k
    · subst h0
      simp [mapSet, mapGet, h]
    · by_cases h1 : k0 = a
      · subst h1
        have hak : ¬(k0 = k) := h0
        simp [mapSet, mapGet, hak]
      · simp [mapSet, mapGet, h0, h1, ih]

theorem mapGet_foldl_mapSet (f : String → String) (attrs : List String) :
    ∀ (m : GoMap) (a : String),
      mapGet (attrs.foldl (fun m x => mapSet m x (f x)) m) a
        = if a ∈ attrs then some (f a) else mapGet m a := by
  induction attrs with
  | nil => intro m a; simp
  | cons x xs ih =>
    intro m a
    by_cases hxs : a ∈ xs
    · simp [List.foldl_cons, ih, hxs]
    · by_cases hx : a = x
      · subst hx
        simp [List.foldl_cons, ih, hxs, mapGet_mapSet_self]
      · have : x ≠ a := fun h => hx h.symm
        simp [List.foldl_cons, ih, hxs, hx, mapGet_mapSet_ne _ _ _ _ this]

theorem mapGet_buildUserMap (attrs : List String) (entry : Entry) (a : String)
    (h : a ∈ attrs) :
    mapGet (buildUserMap attrs entry) a = some (entry.GetAttributeValue a) := by
  simpa [buildUserMap, h] using
    mapGet_foldl_mapSet (fun x => entry.GetAttributeValue x) attrs [] a

theorem foldl_push (l : List String) :
    ∀ acc : List String, l.foldl (fun a v => a ++ [v]) acc = acc ++ l := by
  induction l with
  | nil => intro acc; simp
  | cons v vs ih => intro acc; simp [List.foldl_cons, ih]

theorem foldl_append_flatMap {α : Type} (f : α → List String) (l : List α) :
    ∀ acc : List String, l.foldl (fun acc x => acc ++ f x) acc = acc ++ l.flatMap f := by
  induction l with
  | nil => intro acc; simp
  | cons x xs ih => intro acc; simp [List.foldl_cons, ih]

theorem foldl_push_values (attrs : List EntryAttribute) :
    ∀ acc : List String,
      attrs.foldl (fun acc attr => attr.Values.foldl (fun acc v => acc ++ [v]) acc) acc
        = acc ++ attrs.flatMap (fun attr => attr.Values) := by
  intro acc
  simp only [foldl_push]
  exact foldl_append_flatMap _ attrs acc

theorem foldl_push_entries (entries : List Entry) :
    ∀ acc : List String,
      entries.foldl (fun acc entry =>
          entry.Attributes.foldl (fun acc attr =>
            attr.Values.foldl (fun acc v => acc ++ [v]) acc) acc) acc
        = acc ++ entries.flatMap (fun entry =>
            entry.Attributes.flatMap (fun attr => attr.Values)) := by
  intro acc
  simp only [foldl_push_values]
  exact foldl_append_flatMap _ entries acc

theorem goSprintf_cn_ou (g o b : String) :
    goSprintf "cn=%s,ou=%s,%s" [FmtArg.s g, FmtArg.s o, FmtArg.s b]
      = "cn=" ++ g ++ ",ou=" ++ o ++ "," ++ b := by
  apply String.ext
  simp [goSprintf, goSprintfAux, String.singleton]

theorem goSprintf_ou (o b : String) :
    goSprintf "ou=%s,%s" [FmtArg.s o, FmtArg.s b] = "ou=" ++ o ++ "," ++ b := by
  apply String.ext
  simp [goSprintf, goSprintfAux, String.singleton]

theorem connect_no_bind (env : Env) (lc : LDAPClient) (tr : List Op) :
    ((lc.Connect env tr).2.2).filter isBindOp = tr.filter isBindOp := by
  unfold LDAPClient.Connect
  cases hc : lc.Conn with
  | some l => simp
  | none =>
    by_cases hssl : lc.UseSSL = true
    · cases hd : env.dialTLS tr lc.address
          { InsecureSkipVerify := lc.InsecureSkipVerify, ServerName := lc.ServerName } with
      | error e => simp [hssl, hd, isBindOp]
      | ok l => simp [hssl, hd, isBindOp]
    · cases hd : env.dial tr lc.address with
      | error e => simp [hssl, hd, isBindOp]
      | ok l =>
        by_cases hskip : lc.SkipTLS = true
        · simp [hssl, hskip, hd, isBindOp]
        · cases hst : env.startTLS (tr ++ [Op.dial lc.address]) startTLSConfig with
          | some e => simp [hssl, hskip, hd, hst, isBindOp]
          | none => simp [hssl, hskip, hd, hst, isBindOp]

/-! ### Claim theorems -/

/-- Claim C5: `Filter` (and `GetGroupsOfUser`, which delegates to it) never
issues a bind operation on the connection: the bind operations present in the
final trace are exactly those already present in the initial trace, for every
environment, client configuration (service credentials included) and input. -/
theorem filter_no_bind (env : Env) (lc : LDAPClient) (tr : List Op)
    (f : String) (attrs : List String) (username : String) :
    ((lc.Filter env tr f attrs).2.2).filter isBindOp = tr.filter isBindOp ∧
    ((lc.GetGroupsOfUser env tr username).2.2).filter isBindOp = tr.filter isBindOp := by
  have hfil : ∀ (f0 : String) (attrs0 : List String),
      ((lc.Filter env tr f0 attrs0).2.2).filter isBindOp = tr.filter isBindOp := by
    intro f0 attrs0
    have htr1 : ((lc.Connect env tr).2.2).filter isBindOp = tr.filter isBindOp :=
      connect_no_bind env lc tr
    unfold LDAPClient.Filter
    rcases hc : lc.Connect env tr with ⟨err, lc1, tr1⟩
    rw [hc] at htr1
    cases err with
    | some e => simpa [hc] using htr1
    | none =>
      cases hs : env.search tr1 (lc1.filterSearchRequest f0 attrs0) with
      | error e => simpa [hc, hs, isBindOp] using htr1
      | ok sr => simpa [hc, hs, isBindOp] using htr1
  exact ⟨hfil f attrs, hfil (goSprintf lc.GroupFilter [FmtArg.s username]) ["cn"]⟩

/-- Claim C6: `Connect` is a no-op returning no error when a connection is
already held (the client, its held connection included, is unchanged), and
whenever `Connect` returns an error the client is unchanged and holds no
connection. -/
theorem connect_noop_or_clear (env : Env) (lc : LDAPClient) (tr : List Op) :
    (∀ l, lc.Conn = some l → lc.Connect env tr = (none, lc, tr)) ∧
    (∀ e, (lc.Connect env tr).1 = some e →
      (lc.Connect env tr).2.1 = lc ∧ (lc.Connect env tr).2.1.Conn = none) := by
  have herr : ∀ e, (lc.Connect env tr).1 = some e →
      (lc.Connect env tr).2.1 = lc ∧ lc.Conn = none := by
    intro e he
    unfold LDAPClient.Connect at he ⊢
    cases hc : lc.Conn with
    | some l => simp [hc] at he
    | none =>
      refine ⟨?_, rfl⟩
      by_cases hssl : lc.UseSSL = true
      · cases hd : env.dialTLS tr lc.address
            { InsecureSkipVerify := lc.InsecureSkipVerify, ServerName := lc.ServerName } with
        | error e2 => simp [hssl, hd]
        | ok l => simp [hc, hssl, hd] at he
      · cases hd : env.dial tr lc.address with
        | error e2 => simp [hssl, hd]
        | ok l =>
          by_cases hskip : lc.SkipTLS = true
          · simp [hc, hssl, hskip, hd] at he
          · cases hst : env.startTLS (tr ++ [Op.dial lc.address]) startTLSConfig with
            | some e2 => simp [hssl, hskip, hd, hst]
            | none => simp [hc, hssl, hskip, hd, hst] at he
  constructor
  · intro l hc
    unfold LDAPClient.Connect
    simp [hc]
  · intro e he
    refine ⟨(herr e he).1, ?_⟩
    rw [(herr e he).1]
    exact (herr e he).2

/-- Claim C7: `Close` is idempotent and never fails: with no held connection
it is a no-op; with a held connection it releases it (issuing the close
operation) and clears the handle; a second call in a row changes nothing. -/
theorem close_idempotent (lc : LDAPClient) (tr : List Op) :
    (lc.Close tr).1.Close (lc.Close tr).2 = lc.Close tr ∧
    (lc.Close tr).1.Conn = none ∧
    (lc.Conn = none → lc.Close tr = (lc, tr)) ∧
    (∀ l, lc.Conn = some l →
      lc.Close tr = ({ lc with Conn := none }, tr ++ [Op.close])) := by
  cases hc : lc.Conn with
  | some l =>
    refine ⟨?_, ?_, ?_, ?_⟩ <;> simp [LDAPClient.Close, hc]
  | none =>
    refine ⟨?_, ?_, ?_, ?_⟩ <;> simp [LDAPClient.Close, hc]

/-- Claim C8: with `UseSSL=false` and `SkipTLS=false`, `Connect` performs the
in-place StartTLS upgrade with `InsecureSkipVerify` hard-coded to `true`
(`startTLSConfig`, independent of the client's `InsecureSkipVerify` flag),
while the configured verification policy and server name are used only on the
direct-TLS (`UseSSL=true`) path. -/
theorem connect_tls_paths (env : Env) (lc : LDAPClient) (tr : List Op)
    (h0 : lc.Conn = none) :
    startTLSConfig = { InsecureSkipVerify := true, ServerName := "" } ∧
    (lc.UseSSL = false → lc.SkipTLS = false →
      ((∀ e, env.dial tr lc.address = Except.error e →
          lc.Connect env tr = (some e, lc, tr ++ [Op.dial lc.address])) ∧
       (∀ l, env.dial tr lc.address = Except.ok l →
          lc.Connect env tr =
            match env.startTLS (tr ++ [Op.dial lc.address]) startTLSConfig with
            | some e => (some e, lc,
                (tr ++ [Op.dial lc.address]) ++ [Op.startTLS startTLSConfig])
            | none => (none, { lc with Conn := some l },
                (tr ++ [Op.dial lc.address]) ++ [Op.startTLS startTLSConfig])))) ∧
    (lc.UseSSL = true →
      lc.Connect env tr =
        match env.dialTLS tr lc.address
            { InsecureSkipVerify := lc.InsecureSkipVerify, ServerName := lc.ServerName } with
        | Except.error e => (some e, lc, tr ++ [Op.dialTLS lc.address
            { InsecureSkipVerify := lc.InsecureSkipVerify, ServerName := lc.ServerName }])
        | Except.ok l => (none, { lc with Conn := some l }, tr ++ [Op.dialTLS lc.address
            { InsecureSkipVerify := lc.InsecureSkipVerify, ServerName := lc.ServerName }])) := by
  refine ⟨rfl, ?_, ?_⟩
  · intro hssl hskip
    constructor
    · intro e hd
      unfold LDAPClient.Connect
      simp [h0, hssl, hd]
    · intro l hd
      unfold LDAPClient.Connect
      cases hst : env.startTLS (tr ++ [Op.dial lc.address]) startTLSConfig with
      | some e => simp [h0, hssl, hskip, hd, hst]
      | none => simp [h0, hssl, hskip, hd, hst]
  · intro hssl
    unfold LDAPClient.Connect
    cases hd : env.dialTLS tr lc.address
        { InsecureSkipVerify := lc.InsecureSkipVerify, ServerName := lc.ServerName } with
    | error e => simp [h0, hssl, hd]
    | ok l => simp [h0, hssl, hd]

/-- Claim C9: `ChangeMembers`, `ChangePassword` and `ChangeDescription` are
thin wrappers over `ChangeAttribute`, fixing the attribute to `memberUid` /
`userPassword` / `description` and computing the target DN from the group
name / username / OU and the base DN; the modify request built by
`ChangeAttribute` carries exactly one replace operation (and no add or
delete operations) replacing the named attribute's whole value set. -/
theorem change_wrappers (env : Env) (lc : LDAPClient) (tr : List Op) :
    (∀ members groupname ou,
      lc.ChangeMembers env tr members groupname ou =
        lc.ChangeAttribute env tr ("cn=" ++ groupname ++ ",ou=" ++ ou ++ "," ++ lc.Base)
          "memberUid" members) ∧
    (∀ password username ou,
      lc.ChangePassword env tr password username ou =
        lc.ChangeAttribute env tr ("cn=" ++ username ++ ",ou=" ++ ou ++ "," ++ lc.Base)
          "userPassword" [password]) ∧
    (∀ description ou,
      lc.ChangeDescription env tr description ou =
        lc.ChangeAttribute env tr ("ou=" ++ ou ++ "," ++ lc.Base)
          "description" [description]) ∧
    (∀ DN a vs,
      (mkModifyRequest DN a vs).ReplaceAttributes = [{ Type' := a, Vals := vs }] ∧
      (mkModifyRequest DN a vs).AddAttributes = [] ∧
      (mkModifyRequest DN a vs).DeleteAttributes = [] ∧
      (mkModifyRequest DN a vs).DN = DN) := by
  refine ⟨?_, ?_, ?_, ?_⟩
  · intro members groupname ou
    unfold LDAPClient.ChangeMembers
    rw [goSprintf_cn_ou]
  · intro password username ou
    unfold LDAPClient.ChangePassword
    rw [goSprintf_cn_ou]
  · intro description ou
    unfold LDAPClient.ChangeDescription
    rw [goSprintf_ou]
  · intro DN a vs
    exact ⟨rfl, rfl, rfl, rfl⟩

/-- Claim C10: the service bind block shared by `Authenticate`, `AddUser`,
`AddUserAccount` and `ChangeAttribute` attempts the bind if and only if both
`BindDN` and `BindPassword` are non-empty; with exactly one of the two set
the bind is silently skipped and each method proceeds with its operation
under the connection's existing bind state. -/
theorem serviceBind_iff_both_nonempty (env : Env) (lc : LDAPClient) (tr : List Op) :
    ((lc.BindDN = "" ∨ lc.BindPassword = "") → lc.serviceBind env tr = (none, tr)) ∧
    (lc.BindDN ≠ "" → lc.BindPassword ≠ "" →
      lc.serviceBind env tr =
        (env.bind tr lc.BindDN lc.BindPassword, tr ++ [Op.bind lc.BindDN lc.BindPassword])) ∧
    (∀ lc1 tr1 username password, (lc1.BindDN = "" ∨ lc1.BindPassword = "") →
      lc.Connect env tr = (none, lc1, tr1) →
      lc.Authenticate env tr username password = lc1.authSearch env tr1 username password) ∧
    (∀ lc1 tr1 username password ou, (lc1.BindDN = "" ∨ lc1.BindPassword = "") →
      lc.Connect env tr = (none, lc1, tr1) →
      lc.AddUser env tr username password ou =
        (env.add tr1 (addUserRequest username password ou lc1.Base), lc1,
          tr1 ++ [Op.add (addUserRequest username password ou lc1.Base)])) ∧
    (∀ lc1 tr1 account, (lc1.BindDN = "" ∨ lc1.BindPassword = "") →
      lc.Connect env tr = (none, lc1, tr1) →
      lc.AddUserAccount' env tr account =
        (env.add tr1 (addUserAccountRequest account lc1.Base), lc1,
          tr1 ++ [Op.add (addUserAccountRequest account lc1.Base)])) ∧
    (∀ lc1 tr1 DN a vs, (lc1.BindDN = "" ∨ lc1.BindPassword = "") →
      lc.Connect env tr = (none, lc1, tr1) →
      lc.ChangeAttribute env tr DN a vs =
        (env.modify tr1 (mkModifyRequest DN a vs), lc1,
          tr1 ++ [Op.modify (mkModifyRequest DN a vs)])) := by
  have hskip : ∀ (lc0 : LDAPClient) (tr0 : List Op),
      (lc0.BindDN = "" ∨ lc0.BindPassword = "") → lc0.serviceBind env tr0 = (none, tr0) := by
    intro lc0 tr0 h
    rcases h with h | h <;> simp [LDAPClient.serviceBind, h]
  refine ⟨hskip lc tr, ?_, ?_, ?_, ?_, ?_⟩
  · intro hdn hpw
    simp [LDAPClient.serviceBind, hdn, hpw]
  · intro lc1 tr1 username password h hconn
    unfold LDAPClient.Authenticate
    simp [hconn, hskip lc1 tr1 h]
  · intro lc1 tr1 username password ou h hconn
    unfold LDAPClient.AddUser
    simp [hconn, hskip lc1 tr1 h]
  · intro lc1 tr1 account h hconn
    unfold LDAPClient.AddUserAccount'
    simp [hconn, hskip lc1 tr1 h]
  · intro lc1 tr1 DN a vs h hconn
    unfold LDAPClient.ChangeAttribute
    simp [hconn, hskip lc1 tr1 h]

/-- Claim C2: when the search succeeds with zero matching entries,
`Authenticate` returns `false`, the empty map and the not-found error; with
more than one entry it returns `false` and the ambiguous-match error.  In
both cases the right-hand sides do not mention the password and no further
operation follows the search in the trace, so the outcome is the same for
every password and the password is never sent to the directory. -/
theorem authenticate_zero_or_many (env : Env) (lc lc1 : LDAPClient)
    (tr tr1 tr2 : List Op) (username password : String)
    (hconn : lc.Connect env tr = (none, lc1, tr1))
    (hsb : lc1.serviceBind env tr1 = (none, tr2)) :
    (env.search tr2 (lc1.userSearchRequest username) = Except.ok { Entries := [] } →
      lc.Authenticate env tr username password =
        ((false, [], some "User does not exist"), lc1,
          tr2 ++ [Op.search (lc1.userSearchRequest username)])) ∧
    (∀ e1 e2 rest,
      env.search tr2 (lc1.userSearchRequest username)
          = Except.ok { Entries := e1 :: e2 :: rest } →
      lc.Authenticate env tr username password =
        ((false, [], some "Too many entries returned"), lc1,
          tr2 ++ [Op.search (lc1.userSearchRequest username)])) := by
  have hA : lc.Authenticate env tr username password
      = lc1.authSearch env tr2 username password := by
    unfold LDAPClient.Authenticate
    simp [hconn, hsb]
  constructor
  · intro hs
    rw [hA]
    unfold LDAPClient.authSearch
    simp [hs]
  · intro e1 e2 rest hs
    rw [hA]
    unfold LDAPClient.authSearch
    simp [hs]

/-- Claim C1: when the search succeeds with exactly one entry, a successful
bind as that entry's DN with the supplied password yields `authenticated=true`
with the attribute map holding the entry's value for every configured
attribute and no error except possibly the service-rebind error; a failed
bind yields `authenticated=false`, the same populated map and the bind
error. -/
theorem authenticate_single_entry (env : Env) (lc lc1 : LDAPClient)
    (tr tr1 tr2 : List Op) (username password : String) (entry : Entry)
    (hconn : lc.Connect env tr = (none, lc1, tr1))
    (hsb : lc1.serviceBind env tr1 = (none, tr2))
    (hsearch : env.search tr2 (lc1.userSearchRequest username)
        = Except.ok { Entries := [entry] }) :
    (env.bind (tr2 ++ [Op.search (lc1.userSearchRequest username)]) entry.DN password
        = none →
      (lc.Authenticate env tr username password).1.1 = true ∧
      (lc.Authenticate env tr username password).1.2.1 = buildUserMap lc1.Attributes entry ∧
      (∀ a ∈ lc1.Attributes,
        mapGet (lc.Authenticate env tr username password).1.2.1 a
          = some (entry.GetAttributeValue a)) ∧
      (lc.Authenticate env tr username password).1.2.2 =
        (if lc1.BindDN != "" && lc1.BindPassword != "" then
          env.bind
            (tr2 ++ [Op.search (lc1.userSearchRequest username), Op.bind entry.DN password])
            lc1.BindDN lc1.BindPassword
         else none)) ∧
    (∀ e,
      env.bind (tr2 ++ [Op.search (lc1.userSearchRequest username)]) entry.DN password
          = some e →
      lc.Authenticate env tr username password =
        ((false, buildUserMap lc1.Attributes entry, some e), lc1,
          tr2 ++ [Op.search (lc1.userSearchRequest username), Op.bind entry.DN password])) := by
  have hA : lc.Authenticate env tr username password
      = lc1.authSearch env tr2 username password := by
    unfold LDAPClient.Authenticate
    simp [hconn, hsb]
  constructor
  · intro hub
    by_cases hcred : (lc1.BindDN != "" && lc1.BindPassword != "") = true
    · cases hrb : env.bind
          (tr2 ++ [Op.search (lc1.userSearchRequest username), Op.bind entry.DN password])
          lc1.BindDN lc1.BindPassword with
      | some e =>
        refine ⟨?_, ?_, ?_, ?_⟩
        · rw [hA]; unfold LDAPClient.authSearch
          simp [hsearch, hub, hcred, hrb, List.append_assoc]
        · rw [hA]; unfold LDAPClient.authSearch
          simp [hsearch, hub, hcred, hrb, List.append_assoc]
        · intro a ha
          rw [hA]; unfold LDAPClient.authSearch
          simp [hsearch, hub, hcred, hrb, List.append_assoc,
            mapGet_buildUserMap lc1.Attributes entry a ha]
        · rw [hA]; unfold LDAPClient.authSearch
          simp [hsearch, hub, hcred, hrb, List.append_assoc]
      | none =>
        refine ⟨?_, ?_, ?_, ?_⟩
        · rw [hA]; unfold LDAPClient.authSearch
          simp [hsearch, hub, hcred, hrb, List.append_assoc]
        · rw [hA]; unfold LDAPClient.authSearch
          simp [hsearch, hub, hcred, hrb, List.append_assoc]
        · intro a ha
          rw [hA]; unfold LDAPClient.authSearch
          simp [hsearch, hub, hcred, hrb, List.append_assoc,
            mapGet_buildUserMap lc1.Attributes entry a ha]
        · rw [hA]; unfold LDAPClient.authSearch
          simp [hsearch, hub, hcred, hrb, List.append_assoc]
    · refine ⟨?_, ?_, ?_, ?_⟩
      · rw [hA]; unfold LDAPClient.authSearch
        simp [hsearch, hub, hcred, List.append_assoc]
      · rw [hA]; unfold LDAPClient.authSearch
        simp [hsearch, hub, hcred, List.append_assoc]
      · intro a ha
        rw [hA]; unfold LDAPClient.authSearch
        simp [hsearch, hub, hcred, List.append_assoc,
          mapGet_buildUserMap lc1.Attributes entry a ha]
      · rw [hA]; unfold LDAPClient.authSearch
        simp [hsearch, hub, hcred, List.append_assoc]
  · intro e hub
    rw [hA]
    unfold LDAPClient.authSearch
    simp [hsearch, hub, List.append_assoc]

/-- Claim C3: when the user bind succeeds and service credentials are
configured, a failing rebind with the service credentials still yields
`authenticated=true`, together with the populated attribute map and the
rebind error. -/
theorem authenticate_rebind_failure (env : Env) (lc lc1 : LDAPClient)
    (tr tr1 tr2 : List Op) (username password : String) (entry : Entry) (e : GoErr)
    (hconn : lc.Connect env tr = (none, lc1, tr1))
    (hsb : lc1.serviceBind env tr1 = (none, tr2))
    (hcred : (lc1.BindDN != "" && lc1.BindPassword != "") = true)
    (hsearch : env.search tr2 (lc1.userSearchRequest username)
        = Except.ok { Entries := [entry] })
    (hub : env.bind (tr2 ++ [Op.search (lc1.userSearchRequest username)]) entry.DN password
        = none)
    (hrb : env.bind
        (tr2 ++ [Op.search (lc1.userSearchRequest username), Op.bind entry.DN password])
        lc1.BindDN lc1.BindPassword = some e) :
    lc.Authenticate env tr username password =
      ((true, buildUserMap lc1.Attributes entry, some e), lc1,
        tr2 ++ [Op.search (lc1.userSearchRequest username), Op.bind entry.DN password,
                Op.bind lc1.BindDN lc1.BindPassword]) := by
  have hA : lc.Authenticate env tr username password
      = lc1.authSearch env tr2 username password := by
    unfold LDAPClient.Authenticate
    simp [hconn, hsb]
  rw [hA]
  unfold LDAPClient.authSearch
  simp [hsearch, hub, hcred, hrb, List.append_assoc]

/-- Claim C4: a successful `Filter` returns the flattening of every value of
every attribute of every matched entry in entries-then-attributes-then-values
order, with nil error; its length is the sum over matched entries of the
number of values across their attributes, and zero matches give the empty
sequence with nil error. -/
theorem filter_flatten (env : Env) (lc lc1 : LDAPClient) (tr tr1 : List Op)
    (f : String) (attrs : List String) (sr : SearchResult)
    (hconn : lc.Connect env tr = (none, lc1, tr1))
    (hs : env.search tr1 (lc1.filterSearchRequest f attrs) = Except.ok sr) :
    (lc.Filter env tr f attrs).1.1
        = sr.Entries.flatMap (fun entry => entry.Attributes.flatMap (fun attr => attr.Values)) ∧
    (lc.Filter env tr f attrs).1.2 = none ∧
    (lc.Filter env tr f attrs).1.1.length
        = (sr.Entries.map (fun entry =>
            (entry.Attributes.map (fun attr => attr.Values.length)).sum)).sum ∧
    (sr.Entries = [] → (lc.Filter env tr f attrs).1 = ([], none)) := by
  have hres : (lc.Filter env tr f attrs).1 =
      (sr.Entries.flatMap (fun entry => entry.Attributes.flatMap (fun attr => attr.Values)),
        none) := by
    unfold LDAPClient.Filter
    simp [hconn, hs]
    simpa using foldl_push_entries sr.Entries []
  refine ⟨by rw [hres], by rw [hres], ?_, ?_⟩
  · rw [hres]
    simp [List.length_flatMap, Function.comp_def]
  · intro h0
    rw [hres, h0]
    simp

/-! ### Witnesses: the claim theorems applied at concrete closed inputs -/

/-- Witness for C1 at a concrete client, environment and entry: correct
password authenticates with the populated map, wrong password fails with the
bind error and the same map. -/
theorem authenticate_single_entry_witness :
    (lcW.Authenticate envW [] "alice" "secret").1.1 = true ∧
    mapGet (lcW.Authenticate envW [] "alice" "secret").1.2.1 "mail"
      = some "alice@example.com" ∧
    lcW.Authenticate envW [] "alice" "wrong" =
      ((false, buildUserMap lcW.Attributes entryW, some "Invalid Credentials"), lcW,
        [Op.search (lcW.userSearchRequest "alice"), Op.bind entryW.DN "wrong"]) := by
  have h := authenticate_single_entry envW lcW lcW [] [] [] "alice" "secret" entryW
    rfl rfl rfl
  have hw := authenticate_single_entry envW lcW lcW [] [] [] "alice" "wrong" entryW
    rfl rfl rfl
  have h1 := h.1 rfl
  exact ⟨h1.1, (h1.2.2.1 "mail" (by decide)).trans rfl, hw.2 "Invalid Credentials" rfl⟩

/-- Witness for C2 at concrete inputs: zero matches and two matches. -/
theorem authenticate_zero_or_many_witness :
    lcW.Authenticate envW0 [] "bob" "pw" =
      ((false, [], some "User does not exist"), lcW,
        [Op.search (lcW.userSearchRequest "bob")]) ∧
    lcW.Authenticate envW2 [] "alice" "pw" =
      ((false, [], some "Too many entries returned"), lcW,
        [Op.search (lcW.userSearchRequest "alice")]) :=
  ⟨(authenticate_zero_or_many envW0 lcW lcW [] [] [] "bob" "pw" rfl rfl).1 rfl,
   (authenticate_zero_or_many envW2 lcW lcW [] [] [] "alice" "pw" rfl rfl).2
      entryW entryW2 [] rfl⟩

/-- Witness for C3 at a concrete history-dependent environment where the
service rebind fails after a successful user bind. -/
theorem authenticate_rebind_failure_witness :
    (lcW3.Authenticate envW3 [] "alice" "secret").1.1 = true ∧
    (lcW3.Authenticate envW3 [] "alice" "secret").1.2.2 = some "rebind refused" := by
  have h := authenticate_rebind_failure envW3 lcW3 lcW3 [] []
    [Op.bind "cn=admin,dc=example,dc=com" "adminpw"] "alice" "secret" entryW
    "rebind refused" rfl rfl rfl rfl rfl rfl
  rw [h]
  exact ⟨rfl, rfl⟩

/-- Witness for C4 at a concrete search result with one entry holding two
attributes. -/
theorem filter_flatten_witness :
    (lcW.Filter envW [] "(objectClass=*)" ["mail", "sn"]).1.1
      = ["alice@example.com", "Liddell"] ∧
    (lcW.Filter envW [] "(objectClass=*)" ["mail", "sn"]).1.2 = none := by
  have h := filter_flatten envW lcW lcW [] [] "(objectClass=*)" ["mail", "sn"]
    { Entries := [entryW] } rfl rfl
  exact ⟨h.1.trans rfl, h.2.1⟩

/-- Witness for C6: a held connection makes `Connect` a no-op, and a failed
dial leaves the client without a connection. -/
theorem connect_noop_or_clear_witness :
    lcW.Connect envW [] = (none, lcW, []) ∧
    ((lcW6.Connect envW6 []).2.1 = lcW6 ∧ (lcW6.Connect envW6 []).2.1.Conn = none) :=
  ⟨(connect_noop_or_clear envW lcW []).1 1 rfl,
   (connect_noop_or_clear envW6 lcW6 []).2 "connection refused" rfl⟩

/-- Witness for C7: `Close` without a connection is a no-op; with one it
clears the handle and issues the close. -/
theorem close_idempotent_witness :
    lcW7.Close [] = (lcW7, []) ∧
    lcW.Close [] = ({ lcW with Conn := none }, [Op.close]) :=
  ⟨(close_idempotent lcW7 []).2.2.1 rfl,
   (close_idempotent lcW []).2.2.2 1 rfl⟩

/-- Witness for C8: on the plaintext path with StartTLS enabled, `Connect`
issues the dial followed by the StartTLS upgrade with `startTLSConfig`. -/
theorem connect_tls_paths_witness :
    lcW6.Connect envW [] = (none, { lcW6 with Conn := some 1 },
      [Op.dial lcW6.address, Op.startTLS startTLSConfig]) := by
  have h := ((connect_tls_paths envW lcW6 [] rfl).2.1 rfl rfl).2 1 rfl
  exact h.trans rfl

/-- Witness for C10: a bind DN with an empty password skips the service bind,
full credentials attempt it, and `ChangeAttribute` under a one-sided
configuration proceeds straight to the modify request. -/
theorem serviceBind_iff_both_nonempty_witness :
    lcW10.serviceBind envW [] = (none, []) ∧
    lcW3.serviceBind envW3 [] =
      (envW3.bind [] lcW3.BindDN lcW3.BindPassword,
        [] ++ [Op.bind lcW3.BindDN lcW3.BindPassword]) ∧
    lcW10.ChangeAttribute envW [] "ou=people,dc=example,dc=com" "description" ["d"] =
      (envW.modify [] (mkModifyRequest "ou=people,dc=example,dc=com" "description" ["d"]),
        lcW10,
        [Op.modify (mkModifyRequest "ou=people,dc=example,dc=com" "description" ["d"])]) :=
  ⟨(serviceBind_iff_both_nonempty envW lcW10 []).1 (Or.inr rfl),
   (serviceBind_iff_both_nonempty envW3 lcW3 []).2.1 (by decide) (by decide),
   (serviceBind_iff_both_nonempty envW lcW10 []).2.2.2.2.2 lcW10 []
      "ou=people,dc=example,dc=com" "description" ["d"] (Or.inr rfl) rfl⟩
